import Mathlib

/-!
Verification of the Google OAuth authentication session core of the
EnterViu front end.

The development shallowly embeds the authentication flow of
`src/components/auth/loginModal.tsx` (the `handleGoogleCallback` handler and
the `initializeGoogleOAuth` effect) and the script loader of
`src/utils/googleOAuth.ts` (`loadGoogleOAuthScript`).  External collaborators
(the HTTP layer `authApi`, the cookie store, the redux `authSlice` reducers
and `getErrorMessage` — the latter two are repository code that is not part
of the sources given here and are therefore modelled from the spec) are
represented as explicit parameters and explicit state.

JavaScript truthiness on strings (`if (s)`) is modelled as `s != ""`, and on
optional values as `Option`.  A promise that can reject is modelled as
`Except String`, the `String` being the rejection error's message.
-/

/-- The `data` payload of a successful credential-exchange response
(`GoogleOAuthLoginResponse.data` in `src/types/auth.type.ts`). -/
structure ExchangeData where
  accessToken : String
  refreshToken : String
deriving Repr, DecidableEq

/-- The status envelope returned by the exchange endpoint
(`GoogleOAuthLoginResponse`); `data` is `Option` because the handler guards
`result.data` for JS-nullishness before using it. -/
structure ExchangeResult where
  statusCode : Nat
  message : String
  data : Option ExchangeData
deriving Repr, DecidableEq

/-- The user profile as consumed by the handler from `authApi.getMe()`:
the fields `id`, `email`, `username`, `confirmed` and `role` are the ones the
code reads.  `role` is `Option Nat` (the profile endpoint may omit it). -/
structure UserDetails where
  id : Nat
  email : String
  username : String
  confirmed : Bool
  role : Option Nat
deriving Repr, DecidableEq

/-- The user record dispatched into the auth slice by `loginSuccess`
(field `role_id` mirrors the payload built at loginModal.tsx lines 96-102). -/
structure AuthUser where
  id : Nat
  email : String
  username : String
  confirmed : Bool
  role_id : Option Nat
deriving Repr, DecidableEq

/-- JavaScript `x || undefined` on an optional number: `0` is falsy, so both
an absent `role` and `role = 0` yield `undefined`. -/
def jsOrUndefined : Option Nat → Option Nat
  | none => none
  | some r => if r = 0 then none else some r

/-- Build the `loginSuccess` payload from the fetched profile, as at
loginModal.tsx lines 96-102 (`role_id: userDetails.role || undefined`). -/
def mkAuthUser (ud : UserDetails) : AuthUser :=
  { id := ud.id, email := ud.email, username := ud.username,
    confirmed := ud.confirmed, role_id := jsOrUndefined ud.role }

/-- The auth state machine statuses of the spec (§3). -/
inductive AuthStatus
  | idle
  | authenticating
  | authenticated
  | failed
deriving Repr, DecidableEq

/-- The published auth state (spec §3 AuthState). -/
structure AuthState where
  status : AuthStatus
  user : Option AuthUser
  error : Option String
deriving Repr, DecidableEq

/-- Modelled from the spec: the redux `authSlice` reducer dispatched as
`loginStart()` (the slice itself is repository code not present under the
given sources).  Per §3 and §4.3: the attempt moves to `authenticating`, the
previous `error` is cleared ("error ... is cleared on the next authentication
attempt"), and `user` is null in every non-authenticated state
("`status == "authenticated"` iff `user != null`"). -/
def loginStart (_s : AuthState) : AuthState :=
  { status := .authenticating, user := none, error := none }

/-- Modelled from the spec: the `loginSuccess` reducer — transition to
`Authenticated`, populate `AuthState.user`, no error (§4.3 step 5). -/
def loginSuccess (u : AuthUser) (_s : AuthState) : AuthState :=
  { status := .authenticated, user := some u, error := none }

/-- Modelled from the spec: the `loginFailure` reducer — `status = Failed`,
`user == null`, `error` carries the failure reason (§3, §7). -/
def loginFailure (msg : String) (_s : AuthState) : AuthState :=
  { status := .failed, user := none, error := some msg }

/-- Options passed to `Cookies.set` (js-cookie). -/
structure CookieOptions where
  path : String
  expires : Nat
  sameSite : String
  secure : Bool
deriving Repr, DecidableEq

/-- A stored cookie: its value together with the options it was set with. -/
structure CookieEntry where
  value : String
  options : CookieOptions
deriving Repr, DecidableEq

/-- The token store: the two named cookies the handler writes. -/
structure CookieJar where
  access_token : Option CookieEntry
  refresh_token : Option CookieEntry
deriving Repr, DecidableEq

/-- A one-shot user-visible notification (`message.success` /
`message.error` of antd), with its display duration. -/
inductive Notification
  | success (msg : String) (duration : Nat)
  | failure (msg : String) (duration : Nat)
deriving Repr, DecidableEq

/-- Observable side-effect events of one callback run, in program order. -/
inductive TraceEvent
  | exchangeCalled (credential : String)
  | cookieSet (name : String)
  | setTokenCalled (token : String)
  | getMeCalled
deriving Repr, DecidableEq

/-- The failure taxonomy of the core (spec §7): each constructor is one
`throw`/rejection site of `handleGoogleCallback`'s `try` block. -/
inductive AuthError
  | missingCredential
  | exchange (msg : String)
  | invalidResponse
  | profileFetch (msg : Option String)
deriving Repr, DecidableEq

/-- Modelled from the spec: `getErrorMessage` of `src/utils/apiHandler`
(repository code not present under the given sources) surfaces the thrown
error's human-readable message (§4.3 step 1 "the collaborator's surfaced
error message").  The literal strings are the `Error` messages thrown in
loginModal.tsx lines 57, 121 and 124; for a collaborator rejection the
collaborator's own message is surfaced. -/
def getErrorMessage : AuthError → String
  | .missingCredential => "No credential received from Google"
  | .exchange m => m
  | .invalidResponse => "Invalid response from server"
  | .profileFetch none => "Failed to fetch user details"
  | .profileFetch (some m) => m

/-- The collaborators of one callback run: the exchange endpoint
(`authApi.googleOAuthLogin`), the profile endpoint (`authApi.getMe`), the
page's transport security (`window.location.protocol === "https:"`), and the
translation function `t`. -/
structure Env where
  exchange : String → Except String (Option ExchangeResult)
  getMe : Except String (Option UserDetails)
  secureTransport : Bool
  t : String → String

/-- The mutable world a callback run acts on: the published auth state, the
cookie jar, the notifications emitted so far, the run's event trace, and the
failure (if any) this run ended in. -/
structure RunState where
  auth : AuthState
  cookies : CookieJar
  notifications : List Notification
  trace : List TraceEvent
  failure : Option AuthError
deriving Repr, DecidableEq

/-- The fixed cookie policy of loginModal.tsx lines 67-81: whole-application
path, same-site `Lax`, secure flag mirroring the page transport. -/
def tokenCookieOptions (expires : Nat) (secure : Bool) : CookieOptions :=
  { path := "/", expires := expires, sameSite := "Lax", secure := secure }

/-- `Cookies.set("access_token", tok, \x7bpath:"/", expires:1, ...\x7d)`. -/
def persistAccessToken (secure : Bool) (tok : String) (jar : CookieJar) : CookieJar :=
  { jar with access_token := some { value := tok, options := tokenCookieOptions 1 secure } }

/-- `Cookies.set("refresh_token", tok, \x7bpath:"/", expires:7, ...\x7d)`. -/
def persistRefreshToken (secure : Bool) (tok : String) (jar : CookieJar) : CookieJar :=
  { jar with refresh_token := some { value := tok, options := tokenCookieOptions 7 secure } }

/-- The token-persistence step (§4.3 step 3) as a whole: the access token is
always written, the refresh token only when non-empty (JS truthiness of
`result.data.refreshToken`). -/
def persistTokens (secure : Bool) (d : ExchangeData) (jar : CookieJar) : CookieJar :=
  let jar1 := persistAccessToken secure d.accessToken jar
  if d.refreshToken != "" then persistRefreshToken secure d.refreshToken jar1 else jar1

/-- The `catch` block of `handleGoogleCallback` (loginModal.tsx lines
126-131): dispatch `loginFailure(getErrorMessage(error))` and emit
`message.error(errorMessage, 5)`. -/
def failWith (e : AuthError) (s : RunState) : RunState :=
  { s with auth := loginFailure (getErrorMessage e) s.auth,
           notifications := s.notifications ++ [Notification.failure (getErrorMessage e) 5],
           failure := some e }

/-- Shallow embedding of `handleGoogleCallback` (loginModal.tsx lines
45-134) as one run over the collaborators `env`, the received credential and
the initial world `s0`:
dispatch `loginStart()`; throw if the credential is empty; await the
exchange; require a truthy `result`, `result.data` and
`result.data.accessToken`, else throw "Invalid response from server";
persist the access cookie, and the refresh cookie when truthy; set the axios
token; await `getMe`; on a truthy profile dispatch `loginSuccess` and emit
the success notification, else throw "Failed to fetch user details"; every
throw or rejection lands in the `catch` (`failWith`). -/
def handleGoogleCallback (env : Env) (credential : String) (s0 : RunState) : RunState :=
  let s := { s0 with auth := loginStart s0.auth, failure := none }
  if credential == "" then
    failWith .missingCredential s
  else
    let s1 := { s with trace := s.trace ++ [TraceEvent.exchangeCalled credential] }
    match env.exchange credential with
    | .error m => failWith (.exchange m) s1
    | .ok none => failWith .invalidResponse s1
    | .ok (some r) =>
      match r.data with
      | none => failWith .invalidResponse s1
      | some d =>
        if d.accessToken == "" then failWith .invalidResponse s1
        else
          let s2 := { s1 with
            cookies := persistAccessToken env.secureTransport d.accessToken s1.cookies,
            trace := s1.trace ++ [TraceEvent.cookieSet "access_token"] }
          let s3 :=
            if d.refreshToken == "" then s2
            else { s2 with
              cookies := persistRefreshToken env.secureTransport d.refreshToken s2.cookies,
              trace := s2.trace ++ [TraceEvent.cookieSet "refresh_token"] }
          let s4 := { s3 with
            trace := s3.trace ++ [TraceEvent.setTokenCalled d.accessToken, TraceEvent.getMeCalled] }
          match env.getMe with
          | .error m => failWith (.profileFetch (some m)) s4
          | .ok none => failWith (.profileFetch none) s4
          | .ok (some ud) =>
            { s4 with
              auth := loginSuccess (mkAuthUser ud) s4.auth,
              notifications := s4.notifications ++ [Notification.success (env.t "auth.loginSuccess") 3] }

/-- The initial, never-touched run state: idle auth, empty jar, no
notifications, no trace. -/
def emptyRun : RunState :=
  { auth := { status := .idle, user := none, error := none },
    cookies := { access_token := none, refresh_token := none },
    notifications := [], trace := [], failure := none }

/-- A concrete environment for the end-to-end scenario: exchange accepts
exactly "cred123", the profile endpoint returns user 7. -/
def envHappy : Env :=
  { exchange := fun c =>
      if c == "cred123" then
        .ok (some { statusCode := 200, message := "ok",
                    data := some { accessToken := "acc1", refreshToken := "ref1" } })
      else .error "unexpected",
    getMe := .ok (some { id := 7, email := "a@b.com", username := "alice",
                         confirmed := true, role := none }),
    secureTransport := false,
    t := fun _ => "done" }

/-- A concrete environment whose exchange succeeds but whose profile fetch
returns a falsy profile. -/
def envProfileDown : Env :=
  { exchange := fun _ =>
      .ok (some { statusCode := 200, message := "ok",
                  data := some { accessToken := "tokA", refreshToken := "tokR" } }),
    getMe := .ok none, secureTransport := true, t := fun _ => "" }

/-- A concrete environment whose exchange returns a response with an empty
access token. -/
def envEmptyAccess : Env :=
  { exchange := fun _ =>
      .ok (some { statusCode := 200, message := "ok",
                  data := some { accessToken := "", refreshToken := "r" } }),
    getMe := .ok none, secureTransport := false, t := fun _ => "" }

/-- Token persistence strictly precedes the profile fetch: every
`getMeCalled` event of a trace has a `cookieSet "access_token"` event
strictly before it. -/
def persistPrecedesFetch (tr : List TraceEvent) : Prop :=
  ∀ i : Nat, tr.get? i = some .getMeCalled →
    ∃ j : Nat, j < i ∧ tr.get? j = some (.cookieSet "access_token")

/-- The component state touched by the script-bootstrap effect of the login
modal. -/
structure InitState where
  isGoogleLoaded : Bool
  auth : AuthState
  notifications : List Notification
deriving Repr, DecidableEq

/-- JavaScript `s || fallback` on strings: the empty string is falsy. -/
def jsStringOr (s fallback : String) : String :=
  if s == "" then fallback else s

/-- Shallow embedding of `initializeGoogleOAuth` (loginModal.tsx lines
152-162; the name is shortened here): await `loadGoogleOAuthScript()` and
set `isGoogleLoaded` on success; on rejection, emit
`message.error(t("auth.googleLoadFailed") || "Failed to load Google
authentication", 5)`.  No `loginFailure` is dispatched on this path: the
published auth state is left untouched. -/
def initGoogleOAuth (scriptLoad : Except String Unit) (t : String → String)
    (s : InitState) : InitState :=
  match scriptLoad with
  | .ok _ => { s with isGoogleLoaded := true }
  | .error _ =>
    { s with notifications := s.notifications ++
        [Notification.failure (jsStringOr (t "auth.googleLoadFailed")
          "Failed to load Google authentication") 5] }

/-- An idle initial component state for the bootstrap effect. -/
def idleInit : InitState :=
  { isGoogleLoaded := false,
    auth := { status := .idle, user := none, error := none },
    notifications := [] }

/-- How a pending `loadGoogleOAuthScript` promise is wired to the script
element: the call that created the element uses `script.onload` (which
checks the API surface after the settle delay) and `script.onerror`; a call
that found an existing element attaches plain load/error listeners (which
resolve or reject unconditionally). -/
inductive WaiterKind
  | creator
  | attached
deriving Repr, DecidableEq

/-- One pending loader call: its id and how it is wired to the element. -/
structure Waiter where
  id : Nat
  kind : WaiterKind
deriving Repr, DecidableEq

/-- The world `loadGoogleOAuthScript` (googleOAuth.ts lines 43-82) acts on:
`googleAvailable` is `window.google && window.google.accounts`;
`scriptElem` says whether the gsi script element is in the document (the
code never removes it); `fetchInFlight` says whether the element's fetch
can still fire a load/error event; `fetchesIssued` counts appended script
elements; `settled` maps a call id to `none` (resolved) or `some msg`
(rejected with an Error carrying `msg`). -/
structure LoaderWorld where
  googleAvailable : Bool
  scriptElem : Bool
  fetchInFlight : Bool
  fetchesIssued : Nat
  waiters : List Waiter
  settled : List (Nat × Option String)
  nextId : Nat
deriving Repr, DecidableEq

/-- One call to `loadGoogleOAuthScript`: resolve immediately when the API is
already present; else attach to an existing script element when there is
one; else create the element (issuing the fetch) and wire `onload`/`onerror`
to it. -/
def loadGoogleOAuthScript (w : LoaderWorld) : LoaderWorld :=
  if w.googleAvailable then
    { w with settled := w.settled ++ [(w.nextId, none)], nextId := w.nextId + 1 }
  else if w.scriptElem then
    { w with waiters := w.waiters ++ [{ id := w.nextId, kind := .attached }],
             nextId := w.nextId + 1 }
  else
    { w with scriptElem := true, fetchInFlight := true,
             fetchesIssued := w.fetchesIssued + 1,
             waiters := w.waiters ++ [{ id := w.nextId, kind := .creator }],
             nextId := w.nextId + 1 }

/-- How one waiter settles when the load event fires: an attached listener
resolves unconditionally; the creator checks the API surface after the
settle delay and rejects with "Google OAuth API not available after script
load" when it is absent. -/
def settleOnLoad (googleAvailable : Bool) (wt : Waiter) : Nat × Option String :=
  match wt.kind with
  | .attached => (wt.id, none)
  | .creator =>
    if googleAvailable then (wt.id, none)
    else (wt.id, some "Google OAuth API not available after script load")

/-- The script element's load event (only a fetch still in flight can fire
it): every pending waiter settles per `settleOnLoad`. -/
def fireLoad (w : LoaderWorld) : LoaderWorld :=
  if w.fetchInFlight then
    { w with fetchInFlight := false, waiters := [],
             settled := w.settled ++ w.waiters.map (settleOnLoad w.googleAvailable) }
  else w

/-- The script element's error event: every pending waiter is rejected with
"Failed to load Google OAuth script".  The element stays in the document and
nothing resets the loader. -/
def fireError (w : LoaderWorld) : LoaderWorld :=
  if w.fetchInFlight then
    { w with fetchInFlight := false, waiters := [],
             settled := w.settled ++
               w.waiters.map (fun wt => (wt.id, some "Failed to load Google OAuth script")) }
  else w

/-- Events of the loader world: a new call, the script's load or error
event, or the external library publishing its global API surface. -/
inductive LoaderAction
  | call
  | load
  | error
  | googleReady
deriving Repr, DecidableEq

/-- Apply one loader action. -/
def loaderStep (w : LoaderWorld) : LoaderAction → LoaderWorld
  | .call => loadGoogleOAuthScript w
  | .load => fireLoad w
  | .error => fireError w
  | .googleReady => { w with googleAvailable := true }

/-- Run a sequence of loader actions. -/
def loaderRun (w : LoaderWorld) (acts : List LoaderAction) : LoaderWorld :=
  acts.foldl loaderStep w

/-- A fresh page: no API, no element, nothing pending. -/
def initialLoaderWorld : LoaderWorld :=
  { googleAvailable := false, scriptElem := false, fetchInFlight := false,
    fetchesIssued := 0, waiters := [], settled := [], nextId := 0 }

/-- A loader call is permanently stranded: the script element exists, its
fetch has already completed (so no further load/error event can fire), and
the call is not among the settled ones. -/
def loaderStuck (id : Nat) (w : LoaderWorld) : Prop :=
  w.scriptElem = true ∧ w.fetchInFlight = false ∧ id < w.nextId ∧
    ∀ p ∈ w.settled, p.1 ≠ id

/-- One login attempt's inputs: its credential and what its two network
calls will return when they complete. -/
structure AttemptSpec where
  credential : String
  exchange : Except String (Option ExchangeResult)
  getMe : Except String (Option UserDetails)
deriving Repr

/-- Where an in-flight attempt is suspended: the two `await`s of
`handleGoogleCallback` are its suspension points (spec §5). -/
inductive AttemptPhase
  | notStarted
  | awaitingExchange
  | awaitingProfile
  | finished
deriving Repr, DecidableEq

/-- The synchronous segment from the top of `handleGoogleCallback` to the
`await authApi.googleOAuthLogin(...)`: dispatch `loginStart`, check the
credential. -/
def stepStart (a : AttemptSpec) (s : RunState) : AttemptPhase × RunState :=
  let s1 := { s with auth := loginStart s.auth, failure := none }
  if a.credential == "" then (.finished, failWith .missingCredential s1)
  else (.awaitingExchange,
    { s1 with trace := s1.trace ++ [TraceEvent.exchangeCalled a.credential] })

/-- The synchronous segment run when the exchange response arrives:
validate it, persist the cookies, suspend at `await authApi.getMe()`. -/
def stepExchange (secure : Bool) (a : AttemptSpec) (s : RunState) :
    AttemptPhase × RunState :=
  match a.exchange with
  | .error m => (.finished, failWith (.exchange m) s)
  | .ok none => (.finished, failWith .invalidResponse s)
  | .ok (some r) =>
    match r.data with
    | none => (.finished, failWith .invalidResponse s)
    | some d =>
      if d.accessToken == "" then (.finished, failWith .invalidResponse s)
      else
        let s2 := { s with
          cookies := persistAccessToken secure d.accessToken s.cookies,
          trace := s.trace ++ [TraceEvent.cookieSet "access_token"] }
        let s3 :=
          if d.refreshToken == "" then s2
          else { s2 with
            cookies := persistRefreshToken secure d.refreshToken s2.cookies,
            trace := s2.trace ++ [TraceEvent.cookieSet "refresh_token"] }
        (.awaitingProfile, { s3 with
          trace := s3.trace ++ [TraceEvent.setTokenCalled d.accessToken,
                                TraceEvent.getMeCalled] })

/-- The synchronous segment run when the profile response arrives: the
terminal `loginSuccess`/`loginFailure` dispatch. -/
def stepProfile (t : String → String) (a : AttemptSpec) (s : RunState) :
    AttemptPhase × RunState :=
  match a.getMe with
  | .error m => (.finished, failWith (.profileFetch (some m)) s)
  | .ok none => (.finished, failWith (.profileFetch none) s)
  | .ok (some ud) =>
    (.finished,
      { s with
        auth := loginSuccess (mkAuthUser ud) s.auth,
        notifications := s.notifications ++
          [Notification.success (t "auth.loginSuccess") 3] })

/-- Advance one attempt by one segment, given its phase. -/
def stepAttempt (secure : Bool) (t : String → String) (a : AttemptSpec)
    (p : AttemptPhase) (s : RunState) : AttemptPhase × RunState :=
  match p with
  | .notStarted => stepStart a s
  | .awaitingExchange => stepExchange secure a s
  | .awaitingProfile => stepProfile t a s
  | .finished => (.finished, s)

/-- Which of the two overlapping attempts a scheduled step advances. -/
inductive AttemptId
  | A
  | B
deriving Repr, DecidableEq

/-- Two overlapping attempts over the shared world (the published auth
state, the cookie jar, ...): the shared `RunState` plus each attempt's
phase. -/
structure TwoAttempts where
  phaseA : AttemptPhase
  phaseB : AttemptPhase
  shared : RunState
deriving Repr, DecidableEq

/-- Dispatch one scheduled segment to the chosen attempt.  The code carries
no per-attempt sequence number, so a segment acts on the shared state
regardless of whether its attempt has been superseded. -/
def scheduleStep (secure : Bool) (t : String → String) (a b : AttemptSpec)
    (st : TwoAttempts) : AttemptId → TwoAttempts
  | .A =>
    let r := stepAttempt secure t a st.phaseA st.shared
    { st with phaseA := r.1, shared := r.2 }
  | .B =>
    let r := stepAttempt secure t b st.phaseB st.shared
    { st with phaseB := r.1, shared := r.2 }

/-- Run an interleaving of the two attempts' segments. -/
def runSchedule (secure : Bool) (t : String → String) (a b : AttemptSpec)
    (st : TwoAttempts) (sched : List AttemptId) : TwoAttempts :=
  sched.foldl (scheduleStep secure t a b) st

/-- Both attempts not yet started, fresh shared world. -/
def freshTwoAttempts : TwoAttempts :=
  { phaseA := .notStarted, phaseB := .notStarted, shared := emptyRun }

/-- Attempt A: valid credential, successful exchange, profile fetch that
returns a falsy profile (so A's terminal dispatch is a failure). -/
def attemptA : AttemptSpec :=
  { credential := "cA",
    exchange := .ok (some { statusCode := 200, message := "ok",
                            data := some { accessToken := "tokA", refreshToken := "" } }),
    getMe := .ok none }

/-- Attempt B: valid credential, successful exchange, successful profile
fetch (so B's terminal dispatch is `loginSuccess`). -/
def attemptB : AttemptSpec :=
  { credential := "cB",
    exchange := .ok (some { statusCode := 200, message := "ok",
                            data := some { accessToken := "tokB", refreshToken := "rB" } }),
    getMe := .ok (some { id := 9, email := "b@c.de", username := "bob",
                         confirmed := true, role := some 2 }) }

/-! ## Theorems -/

/-- C1: when the credential is "cred123", the exchange returns statusCode 200
with data accessToken "acc1" / refreshToken "ref1", and the profile fetch
returns id 7, email "a@b.com", username "alice", confirmed true, the final
published auth state is authenticated with exactly that user (role_id
undefined) and error null, and the token store holds "acc1" under the 1-day
policy and "ref1" under the 7-day policy. -/
theorem handleGoogleCallback_end_to_end_success (env : Env) (s0 : RunState) (m : String)
    (hex : env.exchange "cred123" =
      .ok (some { statusCode := 200, message := m,
                  data := some { accessToken := "acc1", refreshToken := "ref1" } }))
    (hget : env.getMe =
      .ok (some { id := 7, email := "a@b.com", username := "alice",
                  confirmed := true, role := none })) :
    (handleGoogleCallback env "cred123" s0).auth =
      { status := .authenticated,
        user := some { id := 7, email := "a@b.com", username := "alice",
                       confirmed := true, role_id := none },
        error := none } ∧
    (handleGoogleCallback env "cred123" s0).cookies.access_token =
      some { value := "acc1", options := tokenCookieOptions 1 env.secureTransport } ∧
    (handleGoogleCallback env "cred123" s0).cookies.refresh_token =
      some { value := "ref1", options := tokenCookieOptions 7 env.secureTransport } := by
  simp [handleGoogleCallback, hex, hget, loginStart, loginSuccess, mkAuthUser,
    jsOrUndefined, persistAccessToken, persistRefreshToken, tokenCookieOptions]

/-- Witness for C1 at a concrete environment. -/
theorem handleGoogleCallback_end_to_end_success_witness :
    (handleGoogleCallback envHappy "cred123" emptyRun).auth.status =
      AuthStatus.authenticated := by
  have h := handleGoogleCallback_end_to_end_success envHappy emptyRun "ok" rfl rfl
  rw [h.1]

/-- C2: when the exchange succeeds with a valid access token but the profile
fetch fails (rejects, or returns a falsy profile), the attempt ends failed
with the profile-fetch failure (literally "Failed to fetch user details" in
the falsy case), while the token store holds exactly the persisted
TokenPair: the run's final cookies are the result of the persistence step on
the initial jar, untouched by the failure path. -/
theorem handleGoogleCallback_profile_failure_keeps_tokens
    (env : Env) (cred : String) (s0 : RunState) (r : ExchangeResult) (d : ExchangeData)
    (hc : cred ≠ "")
    (hex : env.exchange cred = .ok (some r))
    (hd : r.data = some d)
    (ha : d.accessToken ≠ "")
    (hfail : (∃ m, env.getMe = .error m) ∨ env.getMe = .ok none) :
    (handleGoogleCallback env cred s0).auth.status = .failed ∧
    (∃ m, (handleGoogleCallback env cred s0).failure = some (.profileFetch m)) ∧
    (env.getMe = .ok none →
      (handleGoogleCallback env cred s0).auth.error = some "Failed to fetch user details") ∧
    (handleGoogleCallback env cred s0).cookies = persistTokens env.secureTransport d s0.cookies := by
  have hc2 : (cred == "") = false := beq_eq_false_iff_ne.mpr hc
  have ha2 : (d.accessToken == "") = false := beq_eq_false_iff_ne.mpr ha
  have hcook : ∀ res : Except String (Option UserDetails), res = env.getMe →
      (handleGoogleCallback env cred s0).cookies = persistTokens env.secureTransport d s0.cookies := by
    intro res hres
    cases hrt : (d.refreshToken == "") <;>
      rcases res with m | (_ | ud) <;>
      simp [handleGoogleCallback, hex, hd, hc2, ha2, hrt, ← hres, failWith,
        persistTokens, persistAccessToken, persistRefreshToken, bne, beq_eq_false_iff_ne]
  rcases hfail with ⟨m, hm⟩ | hm
  · refine ⟨?_, ⟨some m, ?_⟩, ?_, hcook _ hm.symm⟩ <;>
      cases hrt : (d.refreshToken == "") <;>
        simp [handleGoogleCallback, hex, hd, hc2, ha2, hrt, hm, failWith, loginFailure,
          getErrorMessage]
  · refine ⟨?_, ⟨none, ?_⟩, ?_, hcook _ hm.symm⟩ <;>
      cases hrt : (d.refreshToken == "") <;>
        simp [handleGoogleCallback, hex, hd, hc2, ha2, hrt, hm, failWith, loginFailure,
          getErrorMessage]

/-- Witness for C2 at a concrete environment whose profile fetch returns a
falsy profile after a successful exchange. -/
theorem handleGoogleCallback_profile_failure_keeps_tokens_witness :
    (handleGoogleCallback envProfileDown "credX" emptyRun).auth.status =
      AuthStatus.failed := by
  have h := handleGoogleCallback_profile_failure_keeps_tokens envProfileDown "credX" emptyRun
    { statusCode := 200, message := "ok",
      data := some { accessToken := "tokA", refreshToken := "tokR" } }
    { accessToken := "tokA", refreshToken := "tokR" }
    (by decide) rfl rfl (by decide) (Or.inr rfl)
  exact h.1

/-- C3: an empty credential ends the run failed on the missing-credential
branch (the thrown message is literally "No credential received from
Google"), and the run emits no trace event at all — in particular the
exchange collaborator is never invoked. -/
theorem handleGoogleCallback_empty_credential
    (env : Env) (s0 : RunState) :
    (handleGoogleCallback env "" s0).auth.status = .failed ∧
    (handleGoogleCallback env "" s0).failure = some .missingCredential ∧
    (handleGoogleCallback env "" s0).auth.error = some "No credential received from Google" ∧
    (handleGoogleCallback env "" s0).trace = s0.trace := by
  simp [handleGoogleCallback, failWith, loginFailure, loginStart, getErrorMessage]

/-- C4: when the exchange rejects, or returns a falsy result, a falsy
`data`, or an empty access token, the run ends failed with no token write:
the cookie jar is exactly the initial one and the only trace event is the
exchange call; in the missing-accessToken cases the failure is the
invalid-response branch with message "Invalid response from server". -/
theorem handleGoogleCallback_bad_exchange_no_persist
    (env : Env) (cred : String) (s0 : RunState)
    (hc : cred ≠ "")
    (hbad : (∃ m, env.exchange cred = .error m) ∨ env.exchange cred = .ok none ∨
            (∃ r, env.exchange cred = .ok (some r) ∧ r.data = none) ∨
            (∃ r d, env.exchange cred = .ok (some r) ∧ r.data = some d ∧ d.accessToken = "")) :
    (handleGoogleCallback env cred s0).auth.status = .failed ∧
    (handleGoogleCallback env cred s0).cookies = s0.cookies ∧
    (handleGoogleCallback env cred s0).trace = s0.trace ++ [TraceEvent.exchangeCalled cred] ∧
    (∀ r d, env.exchange cred = .ok (some r) → r.data = some d → d.accessToken = "" →
      (handleGoogleCallback env cred s0).failure = some .invalidResponse ∧
      (handleGoogleCallback env cred s0).auth.error = some "Invalid response from server") := by
  have hc2 : (cred == "") = false := beq_eq_false_iff_ne.mpr hc
  rcases hbad with ⟨m, hm⟩ | hm | ⟨r, hm, hdn⟩ | ⟨r, d, hm, hds, hae⟩
  · refine ⟨?_, ?_, ?_, ?_⟩ <;>
      simp [handleGoogleCallback, hc2, hm, failWith, loginFailure, getErrorMessage]
  · refine ⟨?_, ?_, ?_, ?_⟩ <;>
      simp [handleGoogleCallback, hc2, hm, failWith, loginFailure, getErrorMessage]
  · refine ⟨?_, ?_, ?_, ?_⟩ <;>
      simp [handleGoogleCallback, hc2, hm, hdn, failWith, loginFailure, getErrorMessage]
  · have ha2 : (d.accessToken == "") = true := beq_iff_eq.mpr hae
    refine ⟨?_, ?_, ?_, ?_⟩ <;>
      simp [handleGoogleCallback, hc2, hm, hds, ha2, failWith, loginFailure, getErrorMessage]

/-- Witness for C4 at a concrete environment whose exchange returns a
response with an empty access token. -/
theorem handleGoogleCallback_bad_exchange_no_persist_witness :
    (handleGoogleCallback envEmptyAccess "credY" emptyRun).auth.error =
      some "Invalid response from server" := by
  have h := handleGoogleCallback_bad_exchange_no_persist envEmptyAccess "credY" emptyRun
    (by decide)
    (Or.inr (Or.inr (Or.inr
      ⟨{ statusCode := 200, message := "ok", data := some { accessToken := "", refreshToken := "r" } },
       { accessToken := "", refreshToken := "r" }, rfl, rfl, rfl⟩)))
  exact (h.2.2.2 _ _ rfl rfl rfl).2

/-- In the trace of a run without a refresh-token write, the access cookie
write strictly precedes the profile fetch. -/
lemma persistPrecedesFetch_noRefresh (c x : String) :
    persistPrecedesFetch [TraceEvent.exchangeCalled c, TraceEvent.cookieSet "access_token",
      TraceEvent.setTokenCalled x, TraceEvent.getMeCalled] := by
  intro i hi
  match i with
  | 0 => simp [List.get?] at hi
  | 1 => simp [List.get?] at hi
  | 2 => simp [List.get?] at hi
  | 3 => exact ⟨1, by omega, rfl⟩
  | (n + 4) => simp [List.get?] at hi

/-- In the trace of a run with a refresh-token write, the access cookie
write strictly precedes the profile fetch. -/
lemma persistPrecedesFetch_withRefresh (c x : String) :
    persistPrecedesFetch [TraceEvent.exchangeCalled c, TraceEvent.cookieSet "access_token",
      TraceEvent.cookieSet "refresh_token", TraceEvent.setTokenCalled x,
      TraceEvent.getMeCalled] := by
  intro i hi
  match i with
  | 0 => simp [List.get?] at hi
  | 1 => simp [List.get?] at hi
  | 2 => simp [List.get?] at hi
  | 3 => simp [List.get?] at hi
  | 4 => exact ⟨1, by omega, rfl⟩
  | (n + 5) => simp [List.get?] at hi

/-- C9: on a successful exchange the persisted entries follow the fixed
policy — the access entry has 1-day expiry, the refresh entry 7-day expiry,
both path "/", sameSite "Lax", and the secure flag mirroring the page's
transport — and in every such run the access-cookie write strictly precedes
the profile fetch. -/
theorem token_persistence_policy_and_order
    (env : Env) (cred : String) (s0 : RunState) (r : ExchangeResult) (d : ExchangeData)
    (hc : cred ≠ "") (hex : env.exchange cred = .ok (some r)) (hd : r.data = some d)
    (ha : d.accessToken ≠ "") (ht : s0.trace = []) :
    (handleGoogleCallback env cred s0).cookies.access_token =
      some { value := d.accessToken, options := tokenCookieOptions 1 env.secureTransport } ∧
    (d.refreshToken ≠ "" →
      (handleGoogleCallback env cred s0).cookies.refresh_token =
        some { value := d.refreshToken, options := tokenCookieOptions 7 env.secureTransport }) ∧
    persistPrecedesFetch (handleGoogleCallback env cred s0).trace := by
  have hc2 : (cred == "") = false := beq_eq_false_iff_ne.mpr hc
  have ha2 : (d.accessToken == "") = false := beq_eq_false_iff_ne.mpr ha
  have htr : (handleGoogleCallback env cred s0).trace =
      [TraceEvent.exchangeCalled cred, TraceEvent.cookieSet "access_token"] ++
      (if d.refreshToken == "" then [] else [TraceEvent.cookieSet "refresh_token"]) ++
      [TraceEvent.setTokenCalled d.accessToken, TraceEvent.getMeCalled] := by
    rcases hg : env.getMe with m | (_ | ud) <;>
      cases hrt : (d.refreshToken == "") <;>
        simp [handleGoogleCallback, hex, hd, hc2, ha2, hrt, hg, ht, failWith]
  refine ⟨?_, fun hrn => ?_, ?_⟩
  · rcases hg : env.getMe with m | (_ | ud) <;>
      cases hrt : (d.refreshToken == "") <;>
        simp [handleGoogleCallback, hex, hd, hc2, ha2, hrt, hg, failWith,
          persistAccessToken, persistRefreshToken]
  · have hrt2 : (d.refreshToken == "") = false := beq_eq_false_iff_ne.mpr hrn
    rcases hg : env.getMe with m | (_ | ud) <;>
      simp [handleGoogleCallback, hex, hd, hc2, ha2, hrt2, hg, failWith,
        persistAccessToken, persistRefreshToken]
  · rw [htr]
    cases hrt : (d.refreshToken == "")
    · simpa using persistPrecedesFetch_withRefresh cred d.accessToken
    · simpa using persistPrecedesFetch_noRefresh cred d.accessToken

/-- Witness for C9 at a concrete run. -/
theorem token_persistence_policy_and_order_witness :
    (handleGoogleCallback envProfileDown "credX" emptyRun).cookies.access_token =
      some { value := "tokA", options := tokenCookieOptions 1 true } := by
  have h := token_persistence_policy_and_order envProfileDown "credX" emptyRun
    { statusCode := 200, message := "ok",
      data := some { accessToken := "tokA", refreshToken := "tokR" } }
    { accessToken := "tokA", refreshToken := "tokR" }
    (by decide) rfl rfl (by decide) rfl
  exact h.1

/-- C10: on a successful exchange the refresh cookie is written iff the
response's refreshToken is non-empty, while the access cookie is always
written; a missing refreshToken does not abort the attempt — the profile
fetch is still issued, the pre-existing refresh cookie is untouched, and a
successful profile fetch still reaches the authenticated state. -/
theorem refresh_cookie_iff_nonempty
    (env : Env) (cred : String) (s0 : RunState) (r : ExchangeResult) (d : ExchangeData)
    (hc : cred ≠ "") (hex : env.exchange cred = .ok (some r)) (hd : r.data = some d)
    (ha : d.accessToken ≠ "") (ht : s0.trace = []) :
    (TraceEvent.cookieSet "refresh_token" ∈ (handleGoogleCallback env cred s0).trace ↔
      d.refreshToken ≠ "") ∧
    TraceEvent.cookieSet "access_token" ∈ (handleGoogleCallback env cred s0).trace ∧
    TraceEvent.getMeCalled ∈ (handleGoogleCallback env cred s0).trace ∧
    (d.refreshToken = "" →
      (handleGoogleCallback env cred s0).cookies.refresh_token = s0.cookies.refresh_token) ∧
    (∀ ud, env.getMe = .ok (some ud) →
      (handleGoogleCallback env cred s0).auth.status = .authenticated) := by
  have hc2 : (cred == "") = false := beq_eq_false_iff_ne.mpr hc
  have ha2 : (d.accessToken == "") = false := beq_eq_false_iff_ne.mpr ha
  have htr : (handleGoogleCallback env cred s0).trace =
      [TraceEvent.exchangeCalled cred, TraceEvent.cookieSet "access_token"] ++
      (if d.refreshToken == "" then [] else [TraceEvent.cookieSet "refresh_token"]) ++
      [TraceEvent.setTokenCalled d.accessToken, TraceEvent.getMeCalled] := by
    rcases hg : env.getMe with m | (_ | ud) <;>
      cases hrt : (d.refreshToken == "") <;>
        simp [handleGoogleCallback, hex, hd, hc2, ha2, hrt, hg, ht, failWith]
  refine ⟨?_, ?_, ?_, fun hre => ?_, fun ud hg => ?_⟩
  · rw [htr]
    cases hrt : (d.refreshToken == "") <;>
      simp_all [List.mem_append, List.mem_cons, beq_iff_eq]
  · rw [htr]
    cases hrt : (d.refreshToken == "") <;> simp
  · rw [htr]
    cases hrt : (d.refreshToken == "") <;> simp
  · have hrt : (d.refreshToken == "") = true := beq_iff_eq.mpr hre
    rcases hg : env.getMe with m | (_ | ud) <;>
      simp [handleGoogleCallback, hex, hd, hc2, ha2, hrt, hg, failWith,
        persistAccessToken]
  · simp [handleGoogleCallback, hex, hd, hc2, ha2, hg, failWith, loginSuccess,
      apply_ite RunState.auth]

/-- Witness for C10 at a concrete run whose exchange omits the refresh
token. -/
theorem refresh_cookie_iff_nonempty_witness :
    (handleGoogleCallback
      { exchange := fun _ =>
          .ok (some { statusCode := 200, message := "ok",
                      data := some { accessToken := "tk", refreshToken := "" } }),
        getMe := .ok none, secureTransport := false, t := fun _ => "" }
      "credZ" emptyRun).cookies.refresh_token = emptyRun.cookies.refresh_token := by
  have h := refresh_cookie_iff_nonempty
    { exchange := fun _ =>
        .ok (some { statusCode := 200, message := "ok",
                    data := some { accessToken := "tk", refreshToken := "" } }),
      getMe := .ok none, secureTransport := false, t := fun _ => "" }
    "credZ" emptyRun
    { statusCode := 200, message := "ok",
      data := some { accessToken := "tk", refreshToken := "" } }
    { accessToken := "tk", refreshToken := "" }
    (by decide) rfl rfl (by decide) rfl
  exact h.2.2.2.1 rfl

/-- C6 counterexample: a script-load failure is surfaced as a user-visible
notification but is NOT recorded in the published auth state — the status
does not become failed and the error field stays null, refuting "every
failure ... is both recorded in the published auth state ... and surfaced
as a one-shot user-visible notification". -/
theorem scriptLoad_failure_not_recorded :
    (initGoogleOAuth (.error "network error") (fun _ => "") idleInit).auth.error = none ∧
    (initGoogleOAuth (.error "network error") (fun _ => "") idleInit).auth.status ≠
      AuthStatus.failed ∧
    (initGoogleOAuth (.error "network error") (fun _ => "") idleInit).notifications =
      [Notification.failure "Failed to load Google authentication" 5] := by
  refine ⟨rfl, by decide, rfl⟩

/-- Every failing run of the callback publishes the failed auth state with
the failure's message and appends exactly one error notification. -/
lemma handleGoogleCallback_failure_published
    (env : Env) (cred : String) (s0 : RunState) (e : AuthError)
    (hf : (handleGoogleCallback env cred s0).failure = some e) :
    (handleGoogleCallback env cred s0).auth =
      { status := .failed, user := none, error := some (getErrorMessage e) } ∧
    (handleGoogleCallback env cred s0).notifications =
      s0.notifications ++ [Notification.failure (getErrorMessage e) 5] := by
  cases hc : (cred == "") with
  | true =>
    have he : e = .missingCredential := by
      simp [handleGoogleCallback, hc, failWith] at hf
      exact hf.symm
    subst he
    constructor <;> simp [handleGoogleCallback, hc, failWith, loginFailure]
  | false =>
    rcases hex : env.exchange cred with m | o
    · have he : e = .exchange m := by
        simp [handleGoogleCallback, hc, hex, failWith] at hf
        exact hf.symm
      subst he
      constructor <;> simp [handleGoogleCallback, hc, hex, failWith, loginFailure]
    · rcases o with _ | r
      · have he : e = .invalidResponse := by
          simp [handleGoogleCallback, hc, hex, failWith] at hf
          exact hf.symm
        subst he
        constructor <;> simp [handleGoogleCallback, hc, hex, failWith, loginFailure]
      · rcases hd : r.data with _ | d
        · have he : e = .invalidResponse := by
            simp [handleGoogleCallback, hc, hex, hd, failWith] at hf
            exact hf.symm
          subst he
          constructor <;> simp [handleGoogleCallback, hc, hex, hd, failWith, loginFailure]
        · cases ha : (d.accessToken == "") with
          | true =>
            have he : e = .invalidResponse := by
              simp [handleGoogleCallback, hc, hex, hd, ha, failWith] at hf
              exact hf.symm
            subst he
            constructor <;>
              simp [handleGoogleCallback, hc, hex, hd, ha, failWith, loginFailure]
          | false =>
            cases hrt : (d.refreshToken == "") with
            | true =>
              rcases hg : env.getMe with m | o2
              · have he : e = .profileFetch (some m) := by
                  simp [handleGoogleCallback, hc, hex, hd, ha, hrt, hg, failWith] at hf
                  exact hf.symm
                subst he
                constructor <;>
                  simp [handleGoogleCallback, hc, hex, hd, ha, hrt, hg, failWith, loginFailure]
              · rcases o2 with _ | ud
                · have he : e = .profileFetch none := by
                    simp [handleGoogleCallback, hc, hex, hd, ha, hrt, hg, failWith] at hf
                    exact hf.symm
                  subst he
                  constructor <;>
                    simp [handleGoogleCallback, hc, hex, hd, ha, hrt, hg, failWith, loginFailure]
                · exfalso
                  simp [handleGoogleCallback, hc, hex, hd, ha, hrt, hg, failWith] at hf
            | false =>
              rcases hg : env.getMe with m | o2
              · have he : e = .profileFetch (some m) := by
                  simp [handleGoogleCallback, hc, hex, hd, ha, hrt, hg, failWith] at hf
                  exact hf.symm
                subst he
                constructor <;>
                  simp [handleGoogleCallback, hc, hex, hd, ha, hrt, hg, failWith, loginFailure]
              · rcases o2 with _ | ud
                · have he : e = .profileFetch none := by
                    simp [handleGoogleCallback, hc, hex, hd, ha, hrt, hg, failWith] at hf
                    exact hf.symm
                  subst he
                  constructor <;>
                    simp [handleGoogleCallback, hc, hex, hd, ha, hrt, hg, failWith, loginFailure]
                · exfalso
                  simp [handleGoogleCallback, hc, hex, hd, ha, hrt, hg, failWith] at hf

/-- C6 amended: every failure of the credential flow (missing credential,
exchange rejection, invalid response, profile-fetch failure) is both
recorded in the published auth state — status failed with the failure's
human-readable message — and surfaced as a one-shot error notification;
a script-load failure, by contrast, is surfaced as a one-shot notification
only, leaving the published auth state untouched. -/
theorem failures_recorded_and_notified
    (env : Env) (cred : String) (s0 : RunState) (e : AuthError)
    (sl : String) (t : String → String) (init : InitState)
    (hf : (handleGoogleCallback env cred s0).failure = some e) :
    (handleGoogleCallback env cred s0).auth.status = .failed ∧
    (handleGoogleCallback env cred s0).auth.error = some (getErrorMessage e) ∧
    (handleGoogleCallback env cred s0).notifications =
      s0.notifications ++ [Notification.failure (getErrorMessage e) 5] ∧
    (initGoogleOAuth (.error sl) t init).auth = init.auth ∧
    (initGoogleOAuth (.error sl) t init).notifications =
      init.notifications ++ [Notification.failure
        (jsStringOr (t "auth.googleLoadFailed") "Failed to load Google authentication") 5] := by
  obtain ⟨hauth, hnot⟩ := handleGoogleCallback_failure_published env cred s0 e hf
  exact ⟨by rw [hauth], by rw [hauth], hnot, rfl, rfl⟩

/-- Witness for the amended C6 at a concrete failing run. -/
theorem failures_recorded_and_notified_witness :
    (handleGoogleCallback envProfileDown "credW" emptyRun).notifications =
      [Notification.failure "Failed to fetch user details" 5] := by
  have h := failures_recorded_and_notified envProfileDown "credW" emptyRun
    (.profileFetch none) "net down" (fun _ => "") idleInit rfl
  exact h.2.2.1

/-- A stranded call stays stranded under any single loader action: nothing
removes the script element, nothing re-arms its fetch, and every newly
settled id is a fresh one. -/
lemma loaderStuck_step (n : Nat) (w : LoaderWorld) (a : LoaderAction)
    (h : loaderStuck n w) : loaderStuck n (loaderStep w a) := by
  obtain ⟨hs, hf, hn, hset⟩ := h
  cases a with
  | call =>
    cases hg : w.googleAvailable with
    | true =>
      refine ⟨by simp [loaderStep, loadGoogleOAuthScript, hg, hs],
              by simp [loaderStep, loadGoogleOAuthScript, hg, hf],
              by simp [loaderStep, loadGoogleOAuthScript, hg]; omega, ?_⟩
      intro p hp
      simp [loaderStep, loadGoogleOAuthScript, hg] at hp
      rcases hp with hp | hp
      · exact hset p hp
      · rw [hp]
        omega
    | false =>
      refine ⟨by simp [loaderStep, loadGoogleOAuthScript, hg, hs],
              by simp [loaderStep, loadGoogleOAuthScript, hg, hs, hf],
              by simp [loaderStep, loadGoogleOAuthScript, hg, hs]; omega, ?_⟩
      intro p hp
      simp [loaderStep, loadGoogleOAuthScript, hg, hs] at hp
      exact hset p hp
  | load =>
    have hw : loaderStep w .load = w := by simp [loaderStep, fireLoad, hf]
    rw [hw]
    exact ⟨hs, hf, hn, hset⟩
  | error =>
    have hw : loaderStep w .error = w := by simp [loaderStep, fireError, hf]
    rw [hw]
    exact ⟨hs, hf, hn, hset⟩
  | googleReady =>
    exact ⟨hs, hf, hn, hset⟩

/-- A stranded call stays stranded under any sequence of loader actions. -/
lemma loaderStuck_run (n : Nat) (w : LoaderWorld) (acts : List LoaderAction)
    (h : loaderStuck n w) : loaderStuck n (loaderRun w acts) := by
  induction acts generalizing w with
  | nil => exact h
  | cons a as ih => exact ih (loaderStep w a) (loaderStuck_step n w a h)

/-- C7 counterexample: a first call issues the fetch, the fetch fails (the
call is rejected with "Failed to load Google OAuth script"), and a
subsequent call finds the stale script element still in the document: it
issues NO fresh fetch (fetchesIssued stays 1) and remains attached to the
failed element, unsettled — refuting "the readiness state is reset to
not-requested, so that a later call may retry by issuing a fresh fetch ...
and does settle". -/
theorem loader_retry_after_failure_stranded :
    (loaderRun initialLoaderWorld
        [LoaderAction.call, LoaderAction.error, LoaderAction.call]).fetchesIssued = 1 ∧
    (loaderRun initialLoaderWorld
        [LoaderAction.call, LoaderAction.error, LoaderAction.call]).waiters =
      [{ id := 1, kind := .attached }] ∧
    (loaderRun initialLoaderWorld
        [LoaderAction.call, LoaderAction.error, LoaderAction.call]).settled =
      [(0, some "Failed to load Google OAuth script")] := by
  refine ⟨rfl, rfl, rfl⟩

/-- C7 amended: when the fetch fails, every waiter pending at that moment is
rejected with the ScriptLoadError "Failed to load Google OAuth script"; but
the loader is NOT reset — the script element stays in the document, so a
subsequent call issues no fresh fetch, attaches to the failed element, and
never settles under any further sequence of loader events. -/
theorem loader_failure_rejects_waiters_but_strands_retry
    (w : LoaderWorld)
    (hf : w.fetchInFlight = true) (hs : w.scriptElem = true) (hg : w.googleAvailable = false)
    (hids : ∀ wt ∈ w.waiters, wt.id < w.nextId)
    (hsett : ∀ p ∈ w.settled, p.1 < w.nextId) :
    (fireError w).settled =
      w.settled ++
        w.waiters.map (fun wt => (wt.id, some "Failed to load Google OAuth script")) ∧
    (fireError w).scriptElem = true ∧
    (loadGoogleOAuthScript (fireError w)).fetchesIssued = w.fetchesIssued ∧
    (loadGoogleOAuthScript (fireError w)).waiters = [{ id := w.nextId, kind := .attached }] ∧
    ∀ acts, w.nextId ∉
      ((loaderRun (loadGoogleOAuthScript (fireError w)) acts).settled.map Prod.fst) := by
  refine ⟨by simp [fireError, hf], by simp [fireError, hf, hs],
          by simp [loadGoogleOAuthScript, fireError, hf, hg, hs],
          by simp [loadGoogleOAuthScript, fireError, hf, hg, hs], fun acts => ?_⟩
  have hstuck : loaderStuck w.nextId (loadGoogleOAuthScript (fireError w)) := by
    refine ⟨by simp [loadGoogleOAuthScript, fireError, hf, hg, hs],
            by simp [loadGoogleOAuthScript, fireError, hf, hg, hs],
            by simp [loadGoogleOAuthScript, fireError, hf, hg, hs], ?_⟩
    intro p hp
    simp [loadGoogleOAuthScript, fireError, hf, hg, hs] at hp
    rcases hp with hp | ⟨wt, hwt, hpe⟩
    · exact Nat.ne_of_lt (hsett p hp)
    · rw [← hpe]
      exact Nat.ne_of_lt (hids wt hwt)
  obtain ⟨-, -, -, hnone⟩ := loaderStuck_run w.nextId _ acts hstuck
  intro hmem
  rcases List.mem_map.mp hmem with ⟨p, hp, hpe⟩
  exact hnone p hp hpe

/-- Witness for the amended C7: the concrete world after one call, failed
fetch, and a retry that then sees the library become available and a load
event — the retry still never settles. -/
theorem loader_failure_rejects_waiters_but_strands_retry_witness :
    (loadGoogleOAuthScript (fireError (loaderRun initialLoaderWorld
        [LoaderAction.call]))).fetchesIssued = 1 ∧
    1 ∉ ((loaderRun (loadGoogleOAuthScript (fireError (loaderRun initialLoaderWorld
        [LoaderAction.call])))
        [LoaderAction.googleReady, LoaderAction.call, LoaderAction.load]).settled.map
          Prod.fst) := by
  have h := loader_failure_rejects_waiters_but_strands_retry
    (loaderRun initialLoaderWorld [LoaderAction.call]) rfl rfl rfl
    (by decide) (by decide)
  exact ⟨h.2.2.1, h.2.2.2.2 [LoaderAction.googleReady, LoaderAction.call, LoaderAction.load]⟩

/-- C8: a loader call made while the identity library's global API surface
is already present resolves immediately — no fetch is issued, the document
is not mutated, no waiter is added; and when the load event fires but the
API surface is still not observable at the settle check, the creator call is
rejected with the ScriptLoadError "Google OAuth API not available after
script load". -/
theorem loader_immediate_resolve_and_settle_check
    (w v : LoaderWorld) (wt : Waiter)
    (hg : w.googleAvailable = true)
    (hv : v.fetchInFlight = true) (hvg : v.googleAvailable = false)
    (hwt : wt ∈ v.waiters) (hk : wt.kind = .creator) :
    (loadGoogleOAuthScript w).settled = w.settled ++ [(w.nextId, none)] ∧
    (loadGoogleOAuthScript w).fetchesIssued = w.fetchesIssued ∧
    (loadGoogleOAuthScript w).scriptElem = w.scriptElem ∧
    (loadGoogleOAuthScript w).waiters = w.waiters ∧
    (wt.id, some "Google OAuth API not available after script load") ∈
      (fireLoad v).settled := by
  refine ⟨by simp [loadGoogleOAuthScript, hg], by simp [loadGoogleOAuthScript, hg],
          by simp [loadGoogleOAuthScript, hg], by simp [loadGoogleOAuthScript, hg], ?_⟩
  have : settleOnLoad v.googleAvailable wt =
      (wt.id, some "Google OAuth API not available after script load") := by
    simp [settleOnLoad, hk, hvg]
  simp only [fireLoad, hv, if_true]
  exact List.mem_append_right _ (this ▸ List.mem_map_of_mem _ hwt)

/-- Witness for C8: a world with the API already present, and a creator call
pending on a fetch whose load event fires without the API appearing. -/
theorem loader_immediate_resolve_and_settle_check_witness :
    (loadGoogleOAuthScript (loaderStep initialLoaderWorld
        LoaderAction.googleReady)).fetchesIssued = 0 ∧
    (0, some "Google OAuth API not available after script load") ∈
      (fireLoad (loaderRun initialLoaderWorld [LoaderAction.call])).settled := by
  have h := loader_immediate_resolve_and_settle_check
    (loaderStep initialLoaderWorld LoaderAction.googleReady)
    (loaderRun initialLoaderWorld [LoaderAction.call])
    { id := 0, kind := .creator }
    rfl rfl rfl (by decide) rfl
  exact ⟨h.2.1, h.2.2.2.2⟩

/-- C5 counterexample: attempt A starts first, attempt B starts while A is
suspended at its exchange call and runs to completion, publishing the
authenticated state; A's late responses then arrive and A's terminal failure
dispatch overwrites B's published state — the final state does NOT reflect
the most recently started attempt's terminal result. -/
theorem stale_attempt_overwrites_newer :
    (runSchedule false (fun _ => "") attemptA attemptB freshTwoAttempts
        [AttemptId.A, AttemptId.B, AttemptId.B, AttemptId.B]).shared.auth.status =
      AuthStatus.authenticated ∧
    (runSchedule false (fun _ => "") attemptA attemptB freshTwoAttempts
        [AttemptId.A, AttemptId.B, AttemptId.B, AttemptId.B,
         AttemptId.A, AttemptId.A]).shared.auth.status = AuthStatus.failed ∧
    (runSchedule false (fun _ => "") attemptA attemptB freshTwoAttempts
        [AttemptId.A, AttemptId.B, AttemptId.B, AttemptId.B,
         AttemptId.A, AttemptId.A]).shared.auth.user = none := by
  refine ⟨rfl, rfl, rfl⟩

/-- C5 amended: the code keeps no per-attempt sequence number, so the
published auth state is last-writer-wins by completion order, not by start
order: in the interleaving where attempt A starts first, attempt B starts
and completes while A is suspended, and A's responses arrive last, the
final published auth state is exactly A's terminal result (whatever B
published is overwritten). -/
theorem last_completion_wins
    (a b : AttemptSpec) (r : ExchangeResult) (d : ExchangeData) (t : String → String)
    (hc : a.credential ≠ "")
    (hex : a.exchange = .ok (some r)) (hd : r.data = some d) (ha : d.accessToken ≠ "") :
    (runSchedule false t a b freshTwoAttempts
        [AttemptId.A, AttemptId.B, AttemptId.B, AttemptId.B,
         AttemptId.A, AttemptId.A]).shared.auth =
      match a.getMe with
      | .error m => { status := .failed, user := none, error := some m }
      | .ok none => { status := .failed, user := none,
                      error := some "Failed to fetch user details" }
      | .ok (some ud) => { status := .authenticated, user := some (mkAuthUser ud),
                           error := none } := by
  have hc2 : (a.credential == "") = false := beq_eq_false_iff_ne.mpr hc
  have ha2 : (d.accessToken == "") = false := beq_eq_false_iff_ne.mpr ha
  rcases hg : a.getMe with m | (_ | ud) <;>
    cases hrt : (d.refreshToken == "") <;>
      simp [runSchedule, scheduleStep, stepAttempt, stepStart, stepExchange, stepProfile,
        freshTwoAttempts, emptyRun, hc2, hex, hd, ha2, hrt, hg, failWith, loginFailure,
        loginSuccess, getErrorMessage]

/-- Witness for the amended C5 at the two concrete attempts. -/
theorem last_completion_wins_witness :
    (runSchedule false (fun _ => "") attemptA attemptB freshTwoAttempts
        [AttemptId.A, AttemptId.B, AttemptId.B, AttemptId.B,
         AttemptId.A, AttemptId.A]).shared.auth =
      { status := .failed, user := none, error := some "Failed to fetch user details" } := by
  have h := last_completion_wins attemptA attemptB
    { statusCode := 200, message := "ok",
      data := some { accessToken := "tokA", refreshToken := "" } }
    { accessToken := "tokA", refreshToken := "" }
    (fun _ => "") (by decide) rfl rfl (by decide)
  exact h

/-- Consistency of the interleaving model with the main embedding: running
one attempt's three segments back-to-back, with collaborators agreeing with
`env`, is exactly `handleGoogleCallback`. -/
lemma sequential_segments_eq_handleGoogleCallback (env : Env) (a : AttemptSpec) (s0 : RunState)
    (hx : a.exchange = env.exchange a.credential) (hgm : a.getMe = env.getMe) :
    (let r1 := stepAttempt env.secureTransport env.t a .notStarted s0
     let r2 := stepAttempt env.secureTransport env.t a r1.1 r1.2
     (stepAttempt env.secureTransport env.t a r2.1 r2.2).2) =
      handleGoogleCallback env a.credential s0 := by
  cases hc : (a.credential == "") with
  | true => simp [stepAttempt, stepStart, handleGoogleCallback, hc]
  | false =>
    rcases hex2 : env.exchange a.credential with m | o
    · simp [stepAttempt, stepStart, stepExchange, handleGoogleCallback, hc, hx, hex2]
    · rcases o with _ | r
      · simp [stepAttempt, stepStart, stepExchange, handleGoogleCallback, hc, hx, hex2]
      · rcases hd : r.data with _ | d
        · simp [stepAttempt, stepStart, stepExchange, handleGoogleCallback, hc, hx, hex2, hd]
        · cases ha : (d.accessToken == "") with
          | true =>
            simp [stepAttempt, stepStart, stepExchange, handleGoogleCallback,
              hc, hx, hex2, hd, ha]
          | false =>
            cases hrt : (d.refreshToken == "") <;>
              rcases hg2 : env.getMe with m2 | (_ | ud) <;>
                simp [stepAttempt, stepStart, stepExchange, stepProfile, handleGoogleCallback,
                  hc, hx, hex2, hd, ha, hrt, hgm, hg2]
